import Mathlib

/-!
Verification development for the `framewise_meet_client` Python package.

The definitions below are a shallow embedding of the source files
`framewise_meet_client/event_handler.py`, `framewise_meet_client/app.py`,
`framewise_meet_client/meeting_discovery.py`, `framewise_meet_client/messaging.py`
and `framewise_meet_client/models/outbound.py`.  Python dicts holding the
handler registry are modelled as functions `String → Option (List H)`
(key present ↔ `Option.isSome`), Python exceptions as `Except` values,
and pydantic validation of a raw dict as an oracle
`validate : ModelClass → D → Option T` (the raw-dict type `D` and the typed
message type `T` stay abstract where the claims do not need their shape).
-/

namespace FramewiseMeetClient

/-! ## Model classes (pydantic message classes named in the source) -/

/-- The pydantic model classes that appear as values of the dispatcher's
`MESSAGE_TYPE_MAPPING` in `event_handler.py` and of `App._message_type_mapping`
in `app.py`. -/
inductive ModelClass where
  | transcriptMessage
  | joinMessage
  | exitMessage
  | customUIElementResponse
  | connectionRejectedMessage
deriving DecidableEq, Repr

/-- `MESSAGE_TYPE_MAPPING` from `event_handler.py` (lines 18-26): the
module-level dict mapping event-type strings to pydantic model classes. -/
def MESSAGE_TYPE_MAPPING : String → Option ModelClass := fun et =>
  if et = "transcript" then some ModelClass.transcriptMessage
  else if et = "join" then some ModelClass.joinMessage
  else if et = "exit" then some ModelClass.exitMessage
  else if et = "custom_ui" then some ModelClass.customUIElementResponse
  else if et = "custom_ui_element" then some ModelClass.customUIElementResponse
  else if et = "connection_rejected" then some ModelClass.connectionRejectedMessage
  else none

/-- A message passed to `EventDispatcher.dispatch`: the source annotates it
`Union[dict, BaseMessage]` and branches on `isinstance(message, dict)`. -/
inductive PyMessage (D T : Type) where
  | raw (d : D)
  | typed (t : T)
deriving DecidableEq, Repr

/-- The log statements issued on the dispatch path of `event_handler.py`,
kept as observable output of the model. -/
inductive LogEv where
  | debugNoHandlers
  | debugConverted
  | errorConvertFailed
  | warnNoModelClass
  | errorInHandler
deriving DecidableEq, Repr

/-! ## The handler registry (`EventDispatcher._handlers`) -/

/-- `EventDispatcher._handlers : Dict[str, List[Callable]]`, modelled as a
function from event-type strings to an optional handler list; a key is
present in the dict exactly when the result is `some`. -/
def HandlerTable (H : Type) : Type := String → Option (List H)

/-- The empty registry built by `EventDispatcher.__init__`. -/
def emptyTable (H : Type) : HandlerTable H := fun _ => none

/-- `EventDispatcher.register` (`event_handler.py` lines 34-44): if the
event type has no entry, an empty list is created, then the handler is
appended. -/
def register {H : Type} (t : HandlerTable H) (event_type : String) (handler : H) :
    HandlerTable H :=
  fun k => if k = event_type then some (((t event_type).getD []) ++ [handler]) else t k

/-- `EventDispatcher.unregister` (`event_handler.py` lines 46-63): returns
`False` when the event type has no entry; otherwise calls
`list.remove(handler)`, which removes the first occurrence, returning `True`,
and returns `False` (catching `ValueError`) when the handler is absent. -/
def unregister {H : Type} [DecidableEq H] (t : HandlerTable H) (event_type : String)
    (handler : H) : Bool × HandlerTable H :=
  match t event_type with
  | none => (false, t)
  | some l =>
      if handler ∈ l then
        (true, fun k => if k = event_type then some (l.erase handler) else t k)
      else
        (false, t)

/-! ## Dispatch (`EventDispatcher.dispatch`) -/

/-- The dict-to-model conversion step of `EventDispatcher.dispatch`
(`event_handler.py` lines 76-88).  A typed message is passed through; a raw
dict is validated against the model class found in `MESSAGE_TYPE_MAPPING`.
On validation failure the source logs the error and *continues with the
original dict* (comment on line 86); with no model class it logs a warning
and keeps the dict.  `validate` is the oracle for pydantic construction
`model_class(**message)` (`some` = constructed, `none` = `ValidationError`). -/
def convertMessage {D T : Type} (validate : ModelClass → D → Option T)
    (event_type : String) (m : PyMessage D T) : PyMessage D T × List LogEv :=
  match m with
  | PyMessage.typed t => (PyMessage.typed t, [])
  | PyMessage.raw d =>
      match MESSAGE_TYPE_MAPPING event_type with
      | some mc =>
          match validate mc d with
          | some t => (PyMessage.typed t, [LogEv.debugConverted])
          | none => (PyMessage.raw d, [LogEv.errorConvertFailed])
      | none => (PyMessage.raw d, [LogEv.warnNoModelClass])

/-- `EventDispatcher.dispatch` (`event_handler.py` lines 65-100) over an
abstract mutable state `σ` of which the handler registry is a view
(`handlersOf`); handlers may both fail (the `Except` component, caught by the
per-handler `try/except` on lines 92-100) and mutate the state (`σ`
component), which covers handlers that call `register`/`unregister` or flip
application flags.  Returns the final state, the trace of handler
invocations `(handler, message it received, outcome)` — the loop on
lines 91-96 iterates over a `copy()` of the list taken before the first
invocation — and the logs.  The function is total: the source catches every
handler exception, so no exception escapes `dispatch`. -/
def dispatch {σ H D T E : Type} (handlersOf : σ → HandlerTable H)
    (validate : ModelClass → D → Option T)
    (runH : H → PyMessage D T → σ → Except E Unit × σ)
    (event_type : String) (m : PyMessage D T) (s : σ) :
    σ × List (H × PyMessage D T × Except E Unit) × List LogEv :=
  match handlersOf s event_type with
  | none => (s, [], [LogEv.debugNoHandlers])
  | some hs =>
      let c := convertMessage validate event_type m
      hs.foldl
        (fun acc h =>
          let r := runH h c.1 acc.1
          (r.2, acc.2.1 ++ [(h, c.1, r.1)],
           acc.2.2 ++ (match r.1 with
                       | Except.ok _ => []
                       | Except.error _ => [LogEv.errorInHandler])))
        (s, [], c.2)

/-- Helper: the invocation trace of the dispatch fold lists every handler of
the snapshot exactly once, in order, each applied to the converted message,
no matter how handlers mutate the state or fail. -/
theorem dispatch_fold_trace {σ H D T E : Type}
    (runH : H → PyMessage D T → σ → Except E Unit × σ)
    (mm : PyMessage D T) :
    ∀ (hs : List H) (s : σ) (tr : List (H × PyMessage D T × Except E Unit))
      (lg : List LogEv),
      (hs.foldl
        (fun acc h =>
          let r := runH h mm acc.1
          (r.2, acc.2.1 ++ [(h, mm, r.1)],
           acc.2.2 ++ (match r.1 with
                       | Except.ok _ => []
                       | Except.error _ => [LogEv.errorInHandler])))
        (s, tr, lg)).2.1.map (fun x => (x.1, x.2.1)) =
      tr.map (fun x => (x.1, x.2.1)) ++ hs.map (fun h => (h, mm)) := by
  intro hs
  induction hs with
  | nil => intro s tr lg; simp
  | cons h hs ih =>
      intro s tr lg
      simp only [List.foldl_cons, List.map_cons]
      rw [ih]
      simp

/-- The invocation trace of `dispatch`, projected to (handler, message),
equals the registered list at dispatch entry, each paired with the converted
message. -/
theorem dispatch_trace_eq {σ H D T E : Type} (handlersOf : σ → HandlerTable H)
    (validate : ModelClass → D → Option T)
    (runH : H → PyMessage D T → σ → Except E Unit × σ)
    (event_type : String) (m : PyMessage D T) (s : σ) (hs : List H)
    (hreg : handlersOf s event_type = some hs) :
    (dispatch handlersOf validate runH event_type m s).2.1.map (fun x => (x.1, x.2.1)) =
      hs.map (fun h => (h, (convertMessage validate event_type m).1)) := by
  unfold dispatch
  rw [hreg]
  simpa using dispatch_fold_trace runH (convertMessage validate event_type m).1 hs s [] _

/-- Helper: the dispatch fold never adds `errorConvertFailed` to the log
list; that log entry can only come from the conversion step. -/
theorem dispatch_fold_logs_count {σ H D T E : Type}
    (runH : H → PyMessage D T → σ → Except E Unit × σ)
    (mm : PyMessage D T) :
    ∀ (hs : List H) (s : σ) (tr : List (H × PyMessage D T × Except E Unit))
      (lg : List LogEv),
      (hs.foldl
        (fun acc h =>
          let r := runH h mm acc.1
          (r.2, acc.2.1 ++ [(h, mm, r.1)],
           acc.2.2 ++ (match r.1 with
                       | Except.ok _ => []
                       | Except.error _ => [LogEv.errorInHandler])))
        (s, tr, lg)).2.2.count LogEv.errorConvertFailed =
      lg.count LogEv.errorConvertFailed := by
  intro hs
  induction hs with
  | nil => intro s tr lg; simp
  | cons h hs ih =>
      intro s tr lg
      simp only [List.foldl_cons]
      rw [ih]
      rcases (runH h mm s).1 with _ | e <;> simp [List.count_append]

/-! ## Event-kind constants and aliases (`events/__init__.py`, `app.py`) -/

/-- `TRANSCRIPT_EVENT` in `events/__init__.py`. -/
def TRANSCRIPT_EVENT : String := "transcript"
/-- `JOIN_EVENT` in `events/__init__.py` (note: the canonical join kind is
the string `"on_join"`, not `"join"`). -/
def JOIN_EVENT : String := "on_join"
/-- `EXIT_EVENT` in `events/__init__.py`. -/
def EXIT_EVENT : String := "on_exit"
/-- `CUSTOM_UI_EVENT` in `events/__init__.py`. -/
def CUSTOM_UI_EVENT : String := "custom_ui_element_response"
/-- `INVOKE_EVENT` in `events/__init__.py`. -/
def INVOKE_EVENT : String := "invoke"
/-- `CONNECTION_REJECTED_EVENT` in `events/__init__.py`. -/
def CONNECTION_REJECTED_EVENT : String := "connection_rejected"
/-- `MCQ_QUESTION_EVENT` in `events/__init__.py`. -/
def MCQ_QUESTION_EVENT : String := "mcq_question"
/-- `PLACES_AUTOCOMPLETE_EVENT` in `events/__init__.py`. -/
def PLACES_AUTOCOMPLETE_EVENT : String := "places_autocomplete"
/-- `UPLOAD_FILE_EVENT` in `events/__init__.py`. -/
def UPLOAD_FILE_EVENT : String := "upload_file"
/-- `TEXTINPUT_EVENT` in `events/__init__.py`. -/
def TEXTINPUT_EVENT : String := "textinput"
/-- `CONSENT_FORM_EVENT` in `events/__init__.py`. -/
def CONSENT_FORM_EVENT : String := "consent_form"
/-- `CALENDLY_EVENT` in `events/__init__.py`. -/
def CALENDLY_EVENT : String := "calendly"

/-- `App._event_aliases` from `app.py` (lines 95-109), as a partial lookup
(`dict.get` without default). -/
def eventAliases : String → Option String := fun s =>
  if s = "join" then some JOIN_EVENT
  else if s = "exit" then some EXIT_EVENT
  else if s = "transcript" then some TRANSCRIPT_EVENT
  else if s = "custom_ui_response" then some CUSTOM_UI_EVENT
  else if s = "custom_ui" then some CUSTOM_UI_EVENT
  else if s = "invoke" then some INVOKE_EVENT
  else if s = "connection_rejected" then some CONNECTION_REJECTED_EVENT
  else if s = "mcq_question" then some MCQ_QUESTION_EVENT
  else if s = "places_autocomplete" then some PLACES_AUTOCOMPLETE_EVENT
  else if s = "upload_file" then some UPLOAD_FILE_EVENT
  else if s = "textinput" then some TEXTINPUT_EVENT
  else if s = "consent_form" then some CONSENT_FORM_EVENT
  else if s = "calendly" then some CALENDLY_EVENT
  else none

/-- `self._event_aliases.get(event_type, event_type)` in `App.on`
(`app.py` line 189). -/
def resolveAlias (s : String) : String := (eventAliases s).getD s

/-- `App._message_type_mapping` from `app.py` (lines 111-118). -/
def appMessageTypeMapping : String → Option ModelClass := fun et =>
  if et = JOIN_EVENT then some ModelClass.joinMessage
  else if et = EXIT_EVENT then some ModelClass.exitMessage
  else if et = TRANSCRIPT_EVENT then some ModelClass.transcriptMessage
  else if et = CUSTOM_UI_EVENT then some ModelClass.customUIElementResponse
  else if et = INVOKE_EVENT then some ModelClass.transcriptMessage
  else if et = CONNECTION_REJECTED_EVENT then some ModelClass.connectionRejectedMessage
  else none

/-- Helper: the value an alias resolves to is itself either absent from the
alias table or mapped to itself. -/
theorem eventAliases_val_stable (s v : String) (h : eventAliases s = some v) :
    eventAliases v = none ∨ eventAliases v = some v := by
  unfold eventAliases at h
  by_cases h1 : s = "join"
  · rw [if_pos h1] at h; injection h with h; subst h; decide
  · rw [if_neg h1] at h
    by_cases h2 : s = "exit"
    · rw [if_pos h2] at h; injection h with h; subst h; decide
    · rw [if_neg h2] at h
      by_cases h3 : s = "transcript"
      · rw [if_pos h3] at h; injection h with h; subst h; decide
      · rw [if_neg h3] at h
        by_cases h4 : s = "custom_ui_response"
        · rw [if_pos h4] at h; injection h with h; subst h; decide
        · rw [if_neg h4] at h
          by_cases h5 : s = "custom_ui"
          · rw [if_pos h5] at h; injection h with h; subst h; decide
          · rw [if_neg h5] at h
            by_cases h6 : s = "invoke"
            · rw [if_pos h6] at h; injection h with h; subst h; decide
            · rw [if_neg h6] at h
              by_cases h7 : s = "connection_rejected"
              · rw [if_pos h7] at h; injection h with h; subst h; decide
              · rw [if_neg h7] at h
                by_cases h8 : s = "mcq_question"
                · rw [if_pos h8] at h; injection h with h; subst h; decide
                · rw [if_neg h8] at h
                  by_cases h9 : s = "places_autocomplete"
                  · rw [if_pos h9] at h; injection h with h; subst h; decide
                  · rw [if_neg h9] at h
                    by_cases h10 : s = "upload_file"
                    · rw [if_pos h10] at h; injection h with h; subst h; decide
                    · rw [if_neg h10] at h
                      by_cases h11 : s = "textinput"
                      · rw [if_pos h11] at h; injection h with h; subst h; decide
                      · rw [if_neg h11] at h
                        by_cases h12 : s = "consent_form"
                        · rw [if_pos h12] at h; injection h with h; subst h; decide
                        · rw [if_neg h12] at h
                          by_cases h13 : s = "calendly"
                          · rw [if_pos h13] at h
                            injection h with h; subst h; decide
                          · rw [if_neg h13] at h
                            exact Option.noConfusion h

/-- C9: alias resolution (`_event_aliases.get(event_type, event_type)`) is a
total function on strings: the alias `"join"` resolves to the canonical join
kind `JOIN_EVENT`; a string not in the alias table is returned unchanged;
and resolution is idempotent — `resolveAlias (resolveAlias s) = resolveAlias s`
for every string `s`. -/
theorem C9_alias_resolution_total_idempotent :
    resolveAlias "join" = JOIN_EVENT
    ∧ (∀ s, eventAliases s = none → resolveAlias s = s)
    ∧ (∀ s, resolveAlias (resolveAlias s) = resolveAlias s) := by
  refine ⟨rfl, ?_, ?_⟩
  · intro s h
    simp [resolveAlias, h]
  · intro s
    unfold resolveAlias
    cases h : eventAliases s with
    | none => simp [h]
    | some v =>
        rcases eventAliases_val_stable s v h with h2 | h2 <;> simp [h, h2]

/-- C9 witness: resolving a string outside the alias table (an arbitrary
UI-element subtype) returns it unchanged, and resolution is idempotent at the
aliased name `"custom_ui"`. -/
theorem C9_alias_resolution_witness :
    resolveAlias "weird_ui_type" = "weird_ui_type"
    ∧ resolveAlias (resolveAlias "custom_ui") = resolveAlias "custom_ui" :=
  ⟨C9_alias_resolution_total_idempotent.2.1 "weird_ui_type" (by decide),
   C9_alias_resolution_total_idempotent.2.2 "custom_ui"⟩

/-! ## Claims C1-C3 about `EventDispatcher.dispatch`, C10 about `unregister` -/

/-- C1: for every event kind with registered handlers `hs` and every message,
one `dispatch` call invokes all of `hs`, in order, each on the same
(converted) message — in particular, a handler whose invocation raises
(`runH` returns `Except.error`) does not prevent any later handler from
being invoked, because the source wraps each invocation in its own
`try/except` (`event_handler.py` lines 91-100).  `dispatch` itself is a
total function in this model precisely because that `try/except` catches
every handler exception, so the call returns normally. -/
theorem C1_handler_exception_isolation {σ H D T E : Type}
    (handlersOf : σ → HandlerTable H) (validate : ModelClass → D → Option T)
    (runH : H → PyMessage D T → σ → Except E Unit × σ)
    (event_type : String) (m : PyMessage D T) (s : σ) (hs : List H)
    (hreg : handlersOf s event_type = some hs) :
    (dispatch handlersOf validate runH event_type m s).2.1.map (fun x => (x.1, x.2.1)) =
      hs.map (fun h => (h, (convertMessage validate event_type m).1)) :=
  dispatch_trace_eq handlersOf validate runH event_type m s hs hreg

/-- Registry used by the C1/C2/C3 witnesses: handlers are numeric ids,
raw dicts and typed records are strings. -/
def wTable : HandlerTable Nat := fun k => if k = "transcript" then some [0, 1, 2] else none

/-- Pydantic oracle for the C1/C3 witnesses: validation succeeds. -/
def wValidateOk : ModelClass → String → Option String := fun _ d => some ("typed:" ++ d)

/-- Handler semantics for the C1 witness: handler 1 raises, handlers 0 and 2
succeed; none mutates the registry. -/
def wRunBoom : Nat → PyMessage String String → HandlerTable Nat →
    Except String Unit × HandlerTable Nat :=
  fun h _ t => (if h = 1 then Except.error "boom" else Except.ok (), t)

/-- C1 witness: with handlers `[0, 1, 2]` registered for `"transcript"` and
handler `1` raising, all three handlers are still invoked in order on the
same converted message. -/
theorem C1_handler_exception_isolation_witness :
    (dispatch (fun t => t) wValidateOk wRunBoom "transcript"
        (PyMessage.raw "payload") wTable).2.1.map (fun x => (x.1, x.2.1)) =
      [(0, PyMessage.typed "typed:payload"), (1, PyMessage.typed "typed:payload"),
       (2, PyMessage.typed "typed:payload")] :=
  (C1_handler_exception_isolation (fun t => t) wValidateOk wRunBoom "transcript"
      (PyMessage.raw "payload") wTable [0, 1, 2] (by decide)).trans (by decide)

/-- Pydantic oracle for the C2 theorems: validation of the raw dict fails
(e.g. a `"transcript"` envelope whose required `content` field is missing
fails `TranscriptMessage(**message)` with a `ValidationError`). -/
def wValidateFail : ModelClass → String → Option String := fun _ _ => none

/-- Handler semantics for the C2 counterexample: the single handler records
nothing and succeeds. -/
def wRunOk : Nat → PyMessage String String → HandlerTable Nat →
    Except String Unit × HandlerTable Nat :=
  fun _ _ t => (Except.ok (), t)

/-- Registry with one handler for `"transcript"` (C2 counterexample). -/
def wTableOne : HandlerTable Nat := fun k => if k = "transcript" then some [7] else none

/-- C2 counterexample: dispatching a raw `"transcript"` dict whose decode
fails (`wValidateFail`) does NOT abort the dispatch: the registered handler
is invoked, and it receives the raw (malformed) dict.  The source logs the
conversion error and then, per the comment on `event_handler.py` line 86,
continues with the original dict — contradicting the claim that handlers
are never invoked with data that failed to decode. -/
theorem C2_decode_failure_counterexample :
    (dispatch (fun t => t) wValidateFail wRunOk "transcript"
        (PyMessage.raw "malformed") wTableOne).2 =
      ([(7, PyMessage.raw "malformed", Except.ok ())], [LogEv.errorConvertFailed]) := rfl

/-- C2 (amended): when the inbound payload is raw, a model class exists for
the kind, and decoding fails, `dispatch` logs exactly one decode error and
then invokes every registered handler with the ORIGINAL RAW dict (it does
not abort the dispatch). -/
theorem C2_decode_failure_continues_with_raw {σ H D T E : Type}
    (handlersOf : σ → HandlerTable H) (validate : ModelClass → D → Option T)
    (runH : H → PyMessage D T → σ → Except E Unit × σ)
    (event_type : String) (d : D) (s : σ) (hs : List H) (mc : ModelClass)
    (hreg : handlersOf s event_type = some hs)
    (hmc : MESSAGE_TYPE_MAPPING event_type = some mc)
    (hval : validate mc d = none) :
    (dispatch handlersOf validate runH event_type (PyMessage.raw d) s).2.1.map
        (fun x => (x.1, x.2.1)) = hs.map (fun h => (h, PyMessage.raw d))
    ∧ (dispatch handlersOf validate runH event_type (PyMessage.raw d) s).2.2.count
        LogEv.errorConvertFailed = 1 := by
  have hconv : convertMessage validate event_type (PyMessage.raw d) =
      (PyMessage.raw d, [LogEv.errorConvertFailed]) := by
    unfold convertMessage
    rw [hmc]
    simp [hval]
  constructor
  · have := dispatch_trace_eq handlersOf validate runH event_type (PyMessage.raw d) s hs hreg
    rw [hconv] at this
    exact this
  · unfold dispatch
    rw [hreg]
    rw [hconv]
    simpa using dispatch_fold_logs_count runH (PyMessage.raw d) hs s [] _

/-- C2 witness (for the amended claim): concrete dispatch with one handler,
decode failing; the handler receives the raw dict and exactly one decode
error is logged. -/
theorem C2_decode_failure_continues_with_raw_witness :
    (dispatch (fun t => t) wValidateFail wRunOk "transcript"
        (PyMessage.raw "malformed2") wTableOne).2.1.map (fun x => (x.1, x.2.1)) =
      [(7, PyMessage.raw "malformed2")]
    ∧ (dispatch (fun t => t) wValidateFail wRunOk "transcript"
        (PyMessage.raw "malformed2") wTableOne).2.2.count LogEv.errorConvertFailed = 1 := by
  have := C2_decode_failure_continues_with_raw (fun t => t) wValidateFail wRunOk
    "transcript" "malformed2" wTableOne [7] ModelClass.transcriptMessage
    (by decide) (by decide) rfl
  exact ⟨this.1.trans (by decide), this.2⟩

/-- C3: (a) `register` appends the new handler at the end of the kind's list
(creating the list if absent) and leaves every other kind untouched, so the
stored list is in registration order; (b) one `dispatch` call invokes
exactly the handlers registered for the kind at the moment the dispatch
begins, each exactly once, in that order — for EVERY handler semantics
`runH`, including handlers that register or unregister handlers for the same
kind mid-dispatch, because the loop iterates over a `copy()` of the list
taken before the first invocation (`event_handler.py` line 90). -/
theorem C3_snapshot_registration_order {σ H D T E : Type}
    (handlersOf : σ → HandlerTable H) (validate : ModelClass → D → Option T)
    (runH : H → PyMessage D T → σ → Except E Unit × σ)
    (event_type : String) (m : PyMessage D T) (s : σ) (hs : List H)
    (hreg : handlersOf s event_type = some hs) :
    (∀ (t : HandlerTable H) (k : String) (h : H),
        (register t k h) k = some ((t k).getD [] ++ [h])
        ∧ ∀ k2, k2 ≠ k → (register t k h) k2 = t k2)
    ∧ (dispatch handlersOf validate runH event_type m s).2.1.map (fun x => x.1) = hs := by
  constructor
  · intro t k h
    constructor
    · simp [register]
    · intro k2 hk2
      simp [register, hk2]
  · have := dispatch_trace_eq handlersOf validate runH event_type m s hs hreg
    have h2 : (dispatch handlersOf validate runH event_type m s).2.1.map (fun x => x.1) =
        ((dispatch handlersOf validate runH event_type m s).2.1.map
          (fun x => (x.1, x.2.1))).map Prod.fst := by
      simp [List.map_map]
    rw [h2, this, List.map_map]
    exact List.map_id hs

/-- Handler semantics for the C3 witness: handler 0 registers a new handler
`9` for `"transcript"` while the dispatch is in progress. -/
def wRunMutate : Nat → PyMessage String String → HandlerTable Nat →
    Except String Unit × HandlerTable Nat :=
  fun h _ t => (Except.ok (), if h = 0 then register t "transcript" 9 else t)

/-- Registry with handlers `[0, 1]` for `"transcript"` (C3 witness). -/
def wTableTwo : HandlerTable Nat := fun k => if k = "transcript" then some [0, 1] else none

/-- C3 witness: handler 0 registers handler 9 for the same kind mid-dispatch;
the in-progress dispatch still invokes exactly `[0, 1]`, while the final
registry contains `[0, 1, 9]`. -/
theorem C3_snapshot_registration_order_witness :
    (dispatch (fun t => t) wValidateOk wRunMutate "transcript"
        (PyMessage.raw "p") wTableTwo).2.1.map (fun x => x.1) = [0, 1]
    ∧ (dispatch (fun t => t) wValidateOk wRunMutate "transcript"
        (PyMessage.raw "p") wTableTwo).1 "transcript" = some [0, 1, 9] :=
  ⟨(C3_snapshot_registration_order (fun t => t) wValidateOk wRunMutate "transcript"
      (PyMessage.raw "p") wTableTwo [0, 1] (by decide)).2,
   by decide⟩

/-- C10: `EventDispatcher.unregister` returns `False` and leaves the table
unchanged when the kind has no handler list or the handler is not in it;
when the handler is registered it returns `True`, removes exactly the first
occurrence of the handler from that kind's list, and leaves the lists of all
other kinds unchanged. -/
theorem C10_unregister_first_occurrence {H : Type} [DecidableEq H]
    (t : HandlerTable H) (event_type : String) (h : H) :
    (t event_type = none → unregister t event_type h = (false, t))
    ∧ (∀ l, t event_type = some l → h ∉ l → unregister t event_type h = (false, t))
    ∧ (∀ l, t event_type = some l → h ∈ l →
        (unregister t event_type h).1 = true
        ∧ (∃ l₁ l₂, h ∉ l₁ ∧ l = l₁ ++ h :: l₂
            ∧ (unregister t event_type h).2 event_type = some (l₁ ++ l₂))
        ∧ ∀ k, k ≠ event_type → (unregister t event_type h).2 k = t k) := by
  refine ⟨?_, ?_, ?_⟩
  · intro hnone
    unfold unregister
    rw [hnone]
  · intro l hsome hnotin
    unfold unregister
    rw [hsome]
    simp [hnotin]
  · intro l hsome hin
    have hu : unregister t event_type h =
        (true, fun k => if k = event_type then some (l.erase h) else t k) := by
      unfold unregister
      rw [hsome]
      simp [hin]
    obtain ⟨l₁, l₂, hn, he, her⟩ := List.exists_erase_eq hin
    refine ⟨by rw [hu], ⟨l₁, l₂, hn, he, ?_⟩, ?_⟩
    · rw [hu]
      simp [her]
    · intro k hk
      rw [hu]
      simp [hk]


/-- Table for the C10 witness: `"transcript"` holds `[1, 2, 1]` (handler 1
twice), `"join"` holds `[5]`. -/
def wTableDup : HandlerTable Nat := fun k =>
  if k = "transcript" then some [1, 2, 1]
  else if k = "join" then some [5] else none

/-- C10 witness: unregistering handler 1 from a kind with no entry returns
`False`; unregistering it from `"transcript"` (list `[1, 2, 1]`) returns
`True`, leaves `[2, 1]` (only the first occurrence removed), and does not
touch `"join"`; unregistering an absent handler returns `False` with the
table unchanged. -/
theorem C10_unregister_first_occurrence_witness :
    unregister wTableDup "exit" 1 = (false, wTableDup)
    ∧ (unregister wTableDup "transcript" 1).1 = true
    ∧ (unregister wTableDup "transcript" 1).2 "transcript" = some [2, 1]
    ∧ (unregister wTableDup "transcript" 1).2 "join" = some [5]
    ∧ unregister wTableDup "join" 9 = (false, wTableDup) :=
  ⟨(C10_unregister_first_occurrence wTableDup "exit" 1).1 rfl,
   ((C10_unregister_first_occurrence wTableDup "transcript" 1).2.2 [1, 2, 1]
      rfl (by decide)).1,
   by decide,
   ((C10_unregister_first_occurrence wTableDup "transcript" 1).2.2 [1, 2, 1]
      rfl (by decide)).2.2 "join" (by decide),
   (C10_unregister_first_occurrence wTableDup "join" 9).2.1 [5] rfl (by decide)⟩

/-! ## Claim C4: alias resolution and the receive/dispatch path (`app.py`) -/

/-- The `type_safe_handler` closure that `App.on` actually registers
(`app.py` lines 197-213): it carries the expected message class
(`_message_type_mapping` of the resolved kind) and the user function. -/
structure TypeSafeHandler (F : Type) where
  messageClass : Option ModelClass
  func : F
deriving DecidableEq, Repr

/-- `App.on` (`app.py` lines 179-215): resolves the alias, looks up the
message class for the RESOLVED kind, and registers the wrapping
`type_safe_handler` with the dispatcher under the resolved kind. -/
def appOn {F : Type} (t : HandlerTable (TypeSafeHandler F)) (event_type : String)
    (f : F) : HandlerTable (TypeSafeHandler F) :=
  register t (resolveAlias event_type)
    ⟨appMessageTypeMapping (resolveAlias event_type), f⟩

/-- One receive-then-dispatch step of `App.run`'s message pump
(`app.py` lines 337-339): `data = receive(); if data and "type" in data:
dispatch(data["type"], data)`.  The envelope's raw `type` field is passed to
`dispatch` UNCHANGED — no alias resolution happens on this path. -/
def receiveDispatchStep {σ H D T E : Type} (handlersOf : σ → HandlerTable H)
    (validate : ModelClass → D → Option T)
    (runH : H → PyMessage D T → σ → Except E Unit × σ)
    (typeOf : D → Option String) (data : Option D) (s : σ) :
    σ × List (H × PyMessage D T × Except E Unit) × List LogEv :=
  match data with
  | none => (s, [], [])
  | some d =>
      match typeOf d with
      | none => (s, [], [])
      | some et => dispatch handlersOf validate runH et (PyMessage.raw d) s

/-- Unfolding lemma: one pump step on present data inspects the `type` field. -/
theorem receiveDispatchStep_some {σ H D T E : Type} (handlersOf : σ → HandlerTable H)
    (validate : ModelClass → D → Option T)
    (runH : H → PyMessage D T → σ → Except E Unit × σ)
    (typeOf : D → Option String) (d : D) (s : σ) :
    receiveDispatchStep handlersOf validate runH typeOf (some d) s =
      match typeOf d with
      | none => (s, [], [])
      | some et => dispatch handlersOf validate runH et (PyMessage.raw d) s := rfl

/-- Registry produced by registering one handler via the alias `"join"` on a
fresh dispatcher (C4 counterexample). -/
def c4Table : HandlerTable (TypeSafeHandler Nat) :=
  appOn (emptyTable (TypeSafeHandler Nat)) "join" 0

/-- Handler semantics for the C4 counterexample (inert). -/
def c4Run : TypeSafeHandler Nat → PyMessage String String →
    HandlerTable (TypeSafeHandler Nat) →
    Except String Unit × HandlerTable (TypeSafeHandler Nat) :=
  fun _ _ t => (Except.ok (), t)

/-- Pydantic oracle for the C4 theorems (its result is irrelevant to the
counterexample: no handler list is even found). -/
def c4Validate : ModelClass → String → Option String := fun _ _ => none

/-- C4 counterexample: a handler registered via `App.on("join")` is stored
under the canonical kind `"on_join"` (`JOIN_EVENT`), but the receive path
dispatches an inbound envelope whose `type` field is `"join"` under the raw
string `"join"` with NO alias resolution, so the alias-registered handler is
not invoked (the dispatch finds no handlers at all). -/
theorem C4_receive_path_no_alias_resolution_counterexample :
    c4Table JOIN_EVENT = some [⟨some ModelClass.joinMessage, 0⟩]
    ∧ (receiveDispatchStep (fun t => t) c4Validate c4Run
        (fun _ => some "join") (some "envelope") c4Table).2 =
      ([], [LogEv.debugNoHandlers]) := by
  constructor
  · rfl
  · rfl

/-- C4 (amended): alias resolution happens only at registration time.
`App.on a f` stores the type-safe wrapper under the canonical kind
`resolveAlias a`; the receive path dispatches under the envelope's raw type,
so (i) an envelope whose `type` equals the canonical kind does invoke the
alias-registered wrapper (appended after the previously registered ones),
and (ii) when the alias differs from its canonical kind (as `"join"` /
`"on_join"` do) an envelope whose `type` is the alias name itself invokes no
alias-registered handler. -/
theorem C4_alias_resolution_registration_only {F D T E : Type}
    (t : HandlerTable (TypeSafeHandler F)) (a : String) (f : F)
    (validate : ModelClass → D → Option T)
    (runH : TypeSafeHandler F → PyMessage D T → HandlerTable (TypeSafeHandler F) →
      Except E Unit × HandlerTable (TypeSafeHandler F))
    (typeOf : D → Option String) (d : D) :
    ((appOn t a f) (resolveAlias a) =
        some ((t (resolveAlias a)).getD [] ++
          [TypeSafeHandler.mk (appMessageTypeMapping (resolveAlias a)) f]))
    ∧ (typeOf d = some (resolveAlias a) →
        (receiveDispatchStep (fun x => x) validate runH typeOf (some d)
            (appOn t a f)).2.1.map (fun x => (x.1, x.2.1)) =
          ((t (resolveAlias a)).getD [] ++
            [TypeSafeHandler.mk (appMessageTypeMapping (resolveAlias a)) f]).map
            (fun h => (h, (convertMessage validate (resolveAlias a)
              (PyMessage.raw d)).1)))
    ∧ (a ≠ resolveAlias a → t a = none → typeOf d = some a →
        (receiveDispatchStep (fun x => x) validate runH typeOf (some d)
            (appOn t a f)).2.1 = []) := by
  refine ⟨?_, ?_, ?_⟩
  · simp [appOn, register]
  · intro htype
    rw [receiveDispatchStep_some, htype]
    exact dispatch_trace_eq (fun x => x) validate runH (resolveAlias a)
      (PyMessage.raw d) (appOn t a f) _ (by simp [appOn, register])
  · intro hne hnone htype
    rw [receiveDispatchStep_some, htype]
    have hmiss : (appOn t a f) a = none := by
      unfold appOn register
      rw [if_neg hne]
      exact hnone
    simp [dispatch, hmiss]

/-- C4 witness: concretely, registering via alias `"join"` on an empty
registry stores the wrapper under `"on_join"`; an `"on_join"`-typed envelope
invokes it; a `"join"`-typed envelope invokes nothing. -/
theorem C4_alias_resolution_registration_only_witness :
    c4Table JOIN_EVENT = some [⟨some ModelClass.joinMessage, 0⟩]
    ∧ (receiveDispatchStep (fun x => x) c4Validate c4Run
        (fun _ => some "on_join") (some "envelope") c4Table).2.1.map
        (fun x => (x.1, x.2.1)) =
      [(⟨some ModelClass.joinMessage, 0⟩, PyMessage.raw "envelope")]
    ∧ (receiveDispatchStep (fun x => x) c4Validate c4Run
        (fun _ => some "join") (some "envelope") c4Table).2.1 = [] := by
  have h := C4_alias_resolution_registration_only
    (emptyTable (TypeSafeHandler Nat)) "join" 0 c4Validate c4Run
    (fun _ => some "on_join") "envelope"
  refine ⟨rfl, ?_, ?_⟩
  · exact (h.2.1 rfl).trans (by rfl)
  · exact C4_alias_resolution_registration_only
      (emptyTable (TypeSafeHandler Nat)) "join" 0 c4Validate c4Run
      (fun _ => some "join") "envelope" |>.2.2 (by decide) rfl rfl

/-! ## Claims C5/C6: the run loop (`App.run`), the default connection-rejected
handler (`App._register_default_handlers`) and the reconnect backoff of
`meeting_discovery.await_meeting`. -/

/-- Typed inbound pydantic models (`models/inbound.py`), reduced to their
class tag plus the one payload field the modelled code reads
(`message.content.reason` of `ConnectionRejectedMessage`). -/
inductive InboundModel where
  | transcriptMessage
  | joinMessage
  | exitMessage
  | customUIElementResponse
  | connectionRejectedMessage (reason : Option String)
deriving DecidableEq, Repr

/-- The pydantic class a typed inbound value is an instance of
(the `isinstance(message, message_class)` test of `type_safe_handler`). -/
def InboundModel.classOf : InboundModel → ModelClass
  | InboundModel.transcriptMessage => ModelClass.transcriptMessage
  | InboundModel.joinMessage => ModelClass.joinMessage
  | InboundModel.exitMessage => ModelClass.exitMessage
  | InboundModel.customUIElementResponse => ModelClass.customUIElementResponse
  | InboundModel.connectionRejectedMessage _ => ModelClass.connectionRejectedMessage

/-- Handlers that can sit in the registry of the run-loop model.  The only
one the modelled scenario needs is the `type_safe_handler`-wrapped
`default_connection_rejected_handler` installed by
`App._register_default_handlers` (`app.py` lines 377-385). -/
inductive AppHandler where
  | defaultConnectionRejected
deriving DecidableEq, Repr

/-- The mutable `App` state read and written by `App.run`'s loop:
`self.running`, `self.connection.connected`, and
`self.event_dispatcher._handlers`. -/
structure RunState where
  running : Bool
  connected : Bool
  table : HandlerTable AppHandler

/-- Semantics of `AppHandler` values.  The registered default handler is the
`type_safe_handler` wrapper produced by `App.on` around
`default_connection_rejected_handler`: if the message is not an instance of
`ConnectionRejectedMessage` the wrapper logs and returns `None` without
calling the inner function; otherwise the inner function logs the rejection
reason and sets `self.running = False`. -/
def runAppHandler {D : Type} : AppHandler → PyMessage D InboundModel → RunState →
    Except String Unit × RunState
  | AppHandler.defaultConnectionRejected, m, s =>
      match m with
      | PyMessage.typed t =>
          if t.classOf = ModelClass.connectionRejectedMessage then
            (Except.ok (), { s with running := false })
          else
            (Except.ok (), s)
      | PyMessage.raw _ => (Except.ok (), s)

/-- `self.event_dispatcher.dispatch(data["type"], data)` as invoked by
`App.run` (`app.py` line 339), instantiating the generic dispatcher model
with the `App` state. -/
def dispatchRun {D : Type} (validate : ModelClass → D → Option InboundModel)
    (et : String) (m : PyMessage D InboundModel) (s : RunState) :
    RunState × List (AppHandler × PyMessage D InboundModel × Except String Unit) ×
      List LogEv :=
  dispatch (fun st => st.table) validate runAppHandler et m s

/-- `App._register_default_handlers` (`app.py` lines 377-385): when the
registry has no entry for `CONNECTION_REJECTED_EVENT`, register the default
handler through `on_connection_rejected` → `App.on` (which resolves the
alias — a fixed point here — and wraps the function). -/
def registerDefaultHandlers (s : RunState) : RunState :=
  if (s.table CONNECTION_REJECTED_EVENT).isSome then s
  else
    { s with
      table := register s.table (resolveAlias CONNECTION_REJECTED_EVENT)
        AppHandler.defaultConnectionRejected }

/-- Environment answers consumed by the run loop, one per call into the
connection: a `connect()` call consumes one answer (`connOk` = success,
anything else = raised `ConnectError`); a `receive()` call consumes one
answer (`recvData` = a frame or `None`, `recvClosed` = the socket closed and
`connection.connected` became `False`, anything else = an exception raised
inside the inner `try`). -/
inductive EnvAnswer (D : Type) where
  | connOk
  | connErr
  | recvData (d : Option D)
  | recvClosed
  | recvErr

/-- Actions the inner receive loop (`app.py` lines 335-345) can perform. -/
inductive InnerAction where
  | dispatched (et : String)
  | sleptErrorPause
deriving DecidableEq, Repr

/-- Observable actions of `App.run`'s outer loop. -/
inductive RunAction where
  | connected
  | connectFailed
  | dispatched (et : String)
  | sleptReconnect (n : Nat)
  | sleptErrorPause
deriving DecidableEq, Repr

/-- Injection of inner-loop actions into run actions. -/
def InnerAction.toRun : InnerAction → RunAction
  | InnerAction.dispatched et => RunAction.dispatched et
  | InnerAction.sleptErrorPause => RunAction.sleptErrorPause

/-- The inner receive loop of `App.run` (`app.py` lines 335-345):
`while self.connection.connected and self.running:` receive one frame; if it
is a dict with a `type` field, dispatch it (the dispatch may flip
`self.running` or mutate the registry); on a receive exception, log and
sleep 0.1 s, then continue.  Returns the actions performed, the unconsumed
environment and the final state. -/
def innerPump {D : Type} (validate : ModelClass → D → Option InboundModel)
    (typeOf : D → Option String) :
    Nat → List (EnvAnswer D) → RunState →
      List InnerAction × List (EnvAnswer D) × RunState
  | 0, env, s => ([], env, s)
  | Nat.succ fuel, env, s =>
      if s.connected && s.running then
        match env with
        | [] => ([], [], s)
        | a :: env2 =>
            match a with
            | EnvAnswer.recvData dOpt =>
                match dOpt with
                | none => innerPump validate typeOf fuel env2 s
                | some d =>
                    match typeOf d with
                    | none => innerPump validate typeOf fuel env2 s
                    | some et =>
                        (InnerAction.dispatched et ::
                          (innerPump validate typeOf fuel env2
                            (dispatchRun validate et (PyMessage.raw d) s).1).1,
                         (innerPump validate typeOf fuel env2
                            (dispatchRun validate et (PyMessage.raw d) s).1).2)
            | EnvAnswer.recvClosed =>
                innerPump validate typeOf fuel env2 { s with connected := false }
            | _ =>
                if s.running then
                  (InnerAction.sleptErrorPause ::
                    (innerPump validate typeOf fuel env2 s).1,
                   (innerPump validate typeOf fuel env2 s).2)
                else ([], env2, s)
      else ([], env, s)

/-- The default of the `reconnect_delay` parameter of `App.run`
(`app.py` line 263). -/
def DEFAULT_RECONNECT_DELAY : Nat := 5

/-- The outer loop of `App.run` (`app.py` lines 328-365): while
`self.running`, connect if not connected, pump the inner receive loop, then
— if `self.running` was cleared — break (lines 348-349), else if
`auto_reconnect` sleep `reconnect_delay` seconds (the parameter, never
modified by the loop) and retry, else break.  A `connect()` error is caught
by the outer `except`, which sleeps the same fixed `reconnect_delay` when
`auto_reconnect` is set (lines 359-365). -/
def runLoop {D : Type} (validate : ModelClass → D → Option InboundModel)
    (typeOf : D → Option String) (auto_reconnect : Bool) (reconnect_delay : Nat) :
    Nat → List (EnvAnswer D) → RunState → List RunAction
  | 0, _, _ => []
  | Nat.succ fuel, env, s =>
      if s.running then
        if s.connected then
          (innerPump validate typeOf (env.length + 1) env s).1.map InnerAction.toRun ++
            (if !(innerPump validate typeOf (env.length + 1) env s).2.2.running then []
             else if auto_reconnect then
               RunAction.sleptReconnect reconnect_delay ::
                 runLoop validate typeOf auto_reconnect reconnect_delay fuel
                   (innerPump validate typeOf (env.length + 1) env s).2.1
                   (innerPump validate typeOf (env.length + 1) env s).2.2
             else [])
        else
          match env with
          | [] => []
          | a :: env2 =>
              match a with
              | EnvAnswer.connOk =>
                  RunAction.connected ::
                    ((innerPump validate typeOf (env2.length + 1) env2
                        { s with connected := true }).1.map InnerAction.toRun ++
                     (if !(innerPump validate typeOf (env2.length + 1) env2
                            { s with connected := true }).2.2.running then []
                      else if auto_reconnect then
                        RunAction.sleptReconnect reconnect_delay ::
                          runLoop validate typeOf auto_reconnect reconnect_delay fuel
                            (innerPump validate typeOf (env2.length + 1) env2
                              { s with connected := true }).2.1
                            (innerPump validate typeOf (env2.length + 1) env2
                              { s with connected := true }).2.2
                      else []))
              | _ =>
                  if auto_reconnect then
                    RunAction.connectFailed :: RunAction.sleptReconnect reconnect_delay ::
                      runLoop validate typeOf auto_reconnect reconnect_delay fuel env2 s
                  else [RunAction.connectFailed]
      else []

/-- The reconnect sleeps performed by a run of the outer loop. -/
def reconnectSleeps (acts : List RunAction) : List Nat :=
  acts.filterMap (fun a =>
    match a with
    | RunAction.sleptReconnect n => some n
    | _ => none)

/-! ### The `await_meeting` backoff (`meeting_discovery.py` lines 33-82) -/

/-- `reconnect_delay = min(reconnect_delay * 2, max_reconnect_delay)` with
`max_reconnect_delay = 60` (`meeting_discovery.py` lines 34, 82). -/
def awaitMeetingNextDelay (d : Nat) : Nat := min (d * 2) 60

/-- Delay slept before the `(n+1)`-th retry during an uninterrupted streak
of connection failures in `await_meeting` (initial value 1, then doubled
and capped after each failure). -/
def awaitMeetingDelay : Nat → Nat
  | 0 => 1
  | Nat.succ n => awaitMeetingNextDelay (awaitMeetingDelay n)

/-- The sleeps `await_meeting` performs along a trace of connection-attempt
outcomes (`true` = `websockets.connect` succeeded, which executes
`reconnect_delay = 1` on line 42; `false` = the attempt raised, which sleeps
the current delay and then doubles it with the 60 s cap, lines 80-82). -/
def awaitMeetingSleeps : List Bool → Nat → List Nat
  | [], _ => []
  | success :: rest, d =>
      if success then awaitMeetingSleeps rest 1
      else d :: awaitMeetingSleeps rest (awaitMeetingNextDelay d)

/-- Helper: `InnerAction.toRun` never produces a reconnect sleep — the inner
receive loop can only dispatch or perform the fixed 0.1 s error pause. -/
theorem toRun_ne_sleptReconnect (i : InnerAction) (n : Nat) :
    i.toRun ≠ RunAction.sleptReconnect n := by
  cases i <;> simp [InnerAction.toRun]

/-- Helper: every reconnect sleep the outer loop performs is exactly the
(constant) `reconnect_delay` parameter. -/
theorem runLoop_sleeps_const {D : Type} (validate : ModelClass → D → Option InboundModel)
    (typeOf : D → Option String) (ar : Bool) (rd : Nat) :
    ∀ (fuel : Nat) (env : List (EnvAnswer D)) (s : RunState) (n : Nat),
      RunAction.sleptReconnect n ∈ runLoop validate typeOf ar rd fuel env s → n = rd := by
  intro fuel
  induction fuel with
  | zero =>
      intro env s n h
      simp [runLoop] at h
  | succ fuel ih =>
      intro env s n h
      simp only [runLoop] at h
      by_cases hr : s.running = true
      · rw [if_pos hr] at h
        by_cases hc : s.connected = true
        · rw [if_pos hc] at h
          rcases List.mem_append.mp h with h1 | h1
          · obtain ⟨i, _, hi⟩ := List.mem_map.mp h1
            exact absurd hi (toRun_ne_sleptReconnect i n)
          · by_cases hrn :
              (!(innerPump validate typeOf (env.length + 1) env s).2.2.running) = true
            · rw [if_pos hrn] at h1
              simp at h1
            · rw [if_neg hrn] at h1
              by_cases har : ar = true
              · rw [if_pos har] at h1
                rcases List.mem_cons.mp h1 with h2 | h2
                · injection h2
                · exact ih _ _ _ h2
              · rw [if_neg har] at h1
                simp at h1
        · rw [if_neg hc] at h
          rcases env with _ | ⟨a, env2⟩
          · simp at h
          · rcases a with _ | _ | dOpt | _ | _
            · rcases List.mem_cons.mp h with h1 | h1
              · exact absurd h1 (by simp)
              · rcases List.mem_append.mp h1 with h2 | h2
                · obtain ⟨i, _, hi⟩ := List.mem_map.mp h2
                  exact absurd hi (toRun_ne_sleptReconnect i n)
                · by_cases hrn :
                    (!(innerPump validate typeOf (env2.length + 1) env2
                        { s with connected := true }).2.2.running) = true
                  · rw [if_pos hrn] at h2
                    simp at h2
                  · rw [if_neg hrn] at h2
                    by_cases har : ar = true
                    · rw [if_pos har] at h2
                      rcases List.mem_cons.mp h2 with h3 | h3
                      · injection h3
                      · exact ih _ _ _ h3
                    · rw [if_neg har] at h2
                      simp at h2
            all_goals
              (have h4 : RunAction.sleptReconnect n ∈
                  (if ar = true then
                    RunAction.connectFailed :: RunAction.sleptReconnect rd ::
                      runLoop validate typeOf ar rd fuel env2 s
                  else [RunAction.connectFailed]) := h
               by_cases har : ar = true
               · rw [if_pos har] at h4
                 rcases List.mem_cons.mp h4 with h1 | h1
                 · exact absurd h1 (by simp)
                 · rcases List.mem_cons.mp h1 with h2 | h2
                   · injection h2
                   · exact ih _ _ _ h2
               · rw [if_neg har] at h4
                 simp at h4)
      · rw [if_neg hr] at h
        simp at h

/-- C5 counterexample: with the default `reconnect_delay = 5` of `App.run`,
two consecutive connect failures in the run loop are followed by waits of
5 s and 5 s — not the claimed 1 s and 2 s.  `App.run` sleeps the constant
`reconnect_delay` parameter (`app.py` lines 354 and 363); no doubling
happens in the run loop. -/
theorem C5_run_loop_fixed_delay_counterexample :
    reconnectSleeps (runLoop (D := Unit) (fun _ _ => none) (fun _ => none) true
        DEFAULT_RECONNECT_DELAY 2 [EnvAnswer.connErr, EnvAnswer.connErr]
        { running := true, connected := false, table := emptyTable AppHandler }) = [5, 5]
    ∧ ([5, 5] : List Nat) ≠ [1, 2] := by
  constructor
  · rfl
  · decide

/-- C5 (amended): the doubling-with-60 s-cap reconnect schedule lives in
`meeting_discovery.await_meeting`, not in `App.run`: (1) the delays slept by
`await_meeting` over an uninterrupted failure streak are 1, 2, 4, 8, 16, 32,
60, 60; (2) from the 7th failure on, the delay stays at the 60 s ceiling;
(3) a successful connect resets the delay to 1 s; (4) `App.run`'s reconnect
loop instead waits the constant `reconnect_delay` parameter (default 5 s)
before every reconnect attempt. -/
theorem C5_reconnect_backoff_location :
    (List.range 8).map awaitMeetingDelay = [1, 2, 4, 8, 16, 32, 60, 60]
    ∧ (∀ n, 6 ≤ n → awaitMeetingDelay n = 60)
    ∧ (∀ rest d, awaitMeetingSleeps (true :: rest) d = awaitMeetingSleeps rest 1)
    ∧ (∀ (D : Type) (validate : ModelClass → D → Option InboundModel)
        (typeOf : D → Option String) (ar : Bool) (rd fuel : Nat)
        (env : List (EnvAnswer D)) (s : RunState) (n : Nat),
        RunAction.sleptReconnect n ∈ runLoop validate typeOf ar rd fuel env s →
          n = rd) := by
  refine ⟨by decide, ?_, ?_, ?_⟩
  · intro n hn
    induction n with
    | zero => omega
    | succ k ih =>
        by_cases hk : 6 ≤ k
        · have hstep : awaitMeetingDelay (k + 1) =
              awaitMeetingNextDelay (awaitMeetingDelay k) := rfl
          rw [hstep, ih hk]
          decide
        · have hk5 : k = 5 := by omega
          subst hk5
          decide
  · intro rest d
    rfl
  · intro D validate typeOf ar rd fuel env s n h
    exact runLoop_sleeps_const validate typeOf ar rd fuel env s n h

/-- C5 witness: the delay before the 10th retry of `await_meeting` is the
60 s ceiling, and the reconnect sleep observed in a concrete failing run of
`App.run` equals the `reconnect_delay` parameter (here 5). -/
theorem C5_reconnect_backoff_location_witness :
    awaitMeetingDelay 9 = 60 ∧ (5 : Nat) = 5 :=
  ⟨C5_reconnect_backoff_location.2.1 9 (by decide),
   C5_reconnect_backoff_location.2.2.2 Unit (fun _ _ => none) (fun _ => none) true 5 2
     [EnvAnswer.connErr]
     { running := true, connected := false, table := emptyTable AppHandler } 5
     (by decide)⟩

/-- Helper: the inner receive loop is a no-op when the state is already not
(connected and running); the `while` condition fails immediately. -/
theorem innerPump_not_running {D : Type} (validate : ModelClass → D → Option InboundModel)
    (typeOf : D → Option String) (fuel : Nat) (env : List (EnvAnswer D)) (s : RunState)
    (h : (s.connected && s.running) = false) :
    innerPump validate typeOf fuel env s = ([], env, s) := by
  cases fuel with
  | zero => rfl
  | succ fuel =>
      simp only [innerPump]
      rw [h]
      simp

/-- C6: if the application registered no handler for the
connection-rejected kind, `App._register_default_handlers` (called by
`App.run` before the loop starts) installs the default handler for that
kind; and once a (decodable) connection-rejected envelope is dispatched,
the default handler clears `self.running`, so the run loop emits exactly
the one dispatch action and halts — no reconnect sleep, no further connect
and no further dispatch follow, for any remaining environment, fuel,
`auto_reconnect` flag and `reconnect_delay`. -/
theorem C6_connection_rejected_halts_run_loop {D : Type}
    (validate : ModelClass → D → Option InboundModel) (typeOf : D → Option String)
    (t0 : HandlerTable AppHandler) (d : D) (ro : Option String)
    (h0 : t0 CONNECTION_REJECTED_EVENT = none)
    (htype : typeOf d = some CONNECTION_REJECTED_EVENT)
    (hval : validate ModelClass.connectionRejectedMessage d =
      some (InboundModel.connectionRejectedMessage ro))
    (fuel : Nat) (ar : Bool) (rd : Nat) (env : List (EnvAnswer D)) :
    (registerDefaultHandlers (RunState.mk true true t0)).table
        CONNECTION_REJECTED_EVENT = some [AppHandler.defaultConnectionRejected]
    ∧ runLoop validate typeOf ar rd (fuel + 1) (EnvAnswer.recvData (some d) :: env)
        (registerDefaultHandlers (RunState.mk true true t0)) =
      [RunAction.dispatched CONNECTION_REJECTED_EVENT] := by
  have hs1 : registerDefaultHandlers (RunState.mk true true t0) =
      RunState.mk true true
        (register t0 CONNECTION_REJECTED_EVENT AppHandler.defaultConnectionRejected) := by
    unfold registerDefaultHandlers
    have hproj : (RunState.mk true true t0).table CONNECTION_REJECTED_EVENT = none := h0
    rw [hproj]
    rfl
  have htab : (register t0 CONNECTION_REJECTED_EVENT
      AppHandler.defaultConnectionRejected) CONNECTION_REJECTED_EVENT =
      some [AppHandler.defaultConnectionRejected] := by
    unfold register
    rw [if_pos rfl, h0]
    rfl
  have hmtm : MESSAGE_TYPE_MAPPING CONNECTION_REJECTED_EVENT =
      some ModelClass.connectionRejectedMessage := rfl
  have hconv : convertMessage validate CONNECTION_REJECTED_EVENT (PyMessage.raw d) =
      (PyMessage.typed (InboundModel.connectionRejectedMessage ro),
       [LogEv.debugConverted]) := by
    unfold convertMessage
    rw [hmtm]
    simp [hval]
  have hdisp : (dispatchRun validate CONNECTION_REJECTED_EVENT (PyMessage.raw d)
      (RunState.mk true true
        (register t0 CONNECTION_REJECTED_EVENT
          AppHandler.defaultConnectionRejected))).1 =
      RunState.mk false true
        (register t0 CONNECTION_REJECTED_EVENT AppHandler.defaultConnectionRejected) := by
    unfold dispatchRun dispatch
    simp only [htab, hconv]
    rfl
  have hpump : ∀ f : Nat, innerPump validate typeOf (f + 1)
      (EnvAnswer.recvData (some d) :: env)
      (RunState.mk true true
        (register t0 CONNECTION_REJECTED_EVENT
          AppHandler.defaultConnectionRejected)) =
      ([InnerAction.dispatched CONNECTION_REJECTED_EVENT], env,
       RunState.mk false true
         (register t0 CONNECTION_REJECTED_EVENT
           AppHandler.defaultConnectionRejected)) := by
    intro f
    have step1 : innerPump validate typeOf (f + 1)
        (EnvAnswer.recvData (some d) :: env)
        (RunState.mk true true
          (register t0 CONNECTION_REJECTED_EVENT
            AppHandler.defaultConnectionRejected)) =
        (match typeOf d with
         | none => innerPump validate typeOf f env
             (RunState.mk true true
               (register t0 CONNECTION_REJECTED_EVENT
                 AppHandler.defaultConnectionRejected))
         | some et =>
             (InnerAction.dispatched et ::
               (innerPump validate typeOf f env
                 (dispatchRun validate et (PyMessage.raw d)
                   (RunState.mk true true
                     (register t0 CONNECTION_REJECTED_EVENT
                       AppHandler.defaultConnectionRejected))).1).1,
              (innerPump validate typeOf f env
                (dispatchRun validate et (PyMessage.raw d)
                  (RunState.mk true true
                    (register t0 CONNECTION_REJECTED_EVENT
                      AppHandler.defaultConnectionRejected))).1).2)) := rfl
    rw [step1, htype]
    show (InnerAction.dispatched CONNECTION_REJECTED_EVENT ::
        (innerPump validate typeOf f env
          (dispatchRun validate CONNECTION_REJECTED_EVENT (PyMessage.raw d)
            (RunState.mk true true
              (register t0 CONNECTION_REJECTED_EVENT
                AppHandler.defaultConnectionRejected))).1).1,
       (innerPump validate typeOf f env
         (dispatchRun validate CONNECTION_REJECTED_EVENT (PyMessage.raw d)
           (RunState.mk true true
             (register t0 CONNECTION_REJECTED_EVENT
               AppHandler.defaultConnectionRejected))).1).2) = _
    rw [hdisp]
    rw [innerPump_not_running validate typeOf f env
      (RunState.mk false true
        (register t0 CONNECTION_REJECTED_EVENT AppHandler.defaultConnectionRejected)) rfl]
  constructor
  · rw [hs1]
    exact htab
  · rw [hs1]
    simp only [runLoop]
    rw [hpump ((EnvAnswer.recvData (some d) :: env).length)]
    rfl

/-- Pydantic oracle for the C6 witness: the dict `"rejected-frame"` decodes
into a `ConnectionRejectedMessage` with reason "Invalid meeting". -/
def c6Validate : ModelClass → String → Option InboundModel := fun mc d =>
  if mc = ModelClass.connectionRejectedMessage then
    if d = "rejected-frame" then
      some (InboundModel.connectionRejectedMessage (some "Invalid meeting"))
    else none
  else none

/-- C6 witness: starting from an empty registry, the default handler is
installed, and a connection-rejected envelope makes the concrete run halt
with exactly one dispatch action — the pending `connOk` environment answer is
never consumed (no reconnect is attempted). -/
theorem C6_connection_rejected_halts_run_loop_witness :
    (registerDefaultHandlers (RunState.mk true true (emptyTable AppHandler))).table
        CONNECTION_REJECTED_EVENT = some [AppHandler.defaultConnectionRejected]
    ∧ runLoop c6Validate (fun _ => some CONNECTION_REJECTED_EVENT) true
        DEFAULT_RECONNECT_DELAY 3
        [EnvAnswer.recvData (some "rejected-frame"), EnvAnswer.connOk]
        (registerDefaultHandlers (RunState.mk true true (emptyTable AppHandler))) =
      [RunAction.dispatched CONNECTION_REJECTED_EVENT] :=
  C6_connection_rejected_halts_run_loop c6Validate
    (fun _ => some CONNECTION_REJECTED_EVENT) (emptyTable AppHandler)
    "rejected-frame" (some "Invalid meeting") rfl rfl rfl 2 true
    DEFAULT_RECONNECT_DELAY [EnvAnswer.connOk]

/-! ## Claim C7: `MessageSender._send_model` (`messaging.py` lines 49-65) -/

/-- The log statements of `_send_model`, its only observable output besides
whether `connection.send` was called. -/
inductive SendLog where
  | warnNotConnected
  | debugSent
  | errorSending
deriving DecidableEq, Repr

/-- `MessageSender._send_model` (`messaging.py` lines 49-65): if the
connection is not established, log a warning and `return` (the model is
never handed to `connection.send`); otherwise dump and send, catching any
send exception and logging it.  The result's first component records whether
`connection.send` was attempted (`sendResult` is the oracle for that
`await`).  The function is total — it neither raises nor returns an error
value to its caller in any branch. -/
def sendModel {E : Type} (connected : Bool) (sendResult : Except E Unit) :
    Bool × List SendLog :=
  if !connected then (false, [SendLog.warnNotConnected])
  else
    match sendResult with
    | Except.ok _ => (true, [SendLog.debugSent])
    | Except.error _ => (true, [SendLog.errorSending])

/-- C7 counterexample: sending while the connection is not established is
silently dropped — `connection.send` is never attempted, `_send_model`
returns normally (no exception, no error value; its codomain has no error
channel at all), and the only trace is a warning log line.  The wrapper
send methods (`send_generated_text` etc.) discard the scheduled
task/future, so the caller receives no `SendError` and no observable
deferred failure, contradicting the claim. -/
theorem C7_not_connected_silent_drop_counterexample :
    sendModel (E := String) false (Except.ok ()) =
      (false, [SendLog.warnNotConnected]) := rfl

/-- C7 (amended): for every possible send outcome oracle, a send requested
while the connection is not established logs a warning and returns normally
without attempting the send; the failure is surfaced only in the log, never
as an error to the caller. -/
theorem C7_not_connected_drops_with_warning {E : Type} (r : Except E Unit) :
    sendModel false r = (false, [SendLog.warnNotConnected]) := rfl

/-! ## Claim C8: outbound message construction (`models/outbound.py`,
`messaging.py`) -/

/-- `GeneratedTextContent` (`models/outbound.py` lines 73-79). -/
structure GeneratedTextContent where
  text : String
  is_generation_end : Bool
deriving DecidableEq, Repr

/-- `GeneratedTextMessage` (`models/outbound.py` lines 98-104): extends
`BaseResponse`, whose `message_id`, `meeting_id` and `timestamp` fields are
declared required (`Field(...)`, lines 10-15); `type` defaults to
`"generated_text"`. -/
structure GeneratedTextMessage where
  message_id : String
  meeting_id : String
  timestamp : String
  type : String
  content : GeneratedTextContent
deriving DecidableEq, Repr

/-- The missing-required-field list pydantic reports for a `BaseResponse`
subclass constructed from the given optional keyword arguments. -/
def missingBaseResponseFields (message_id meeting_id timestamp : Option String) :
    List String :=
  (if message_id.isSome then [] else ["message_id"]) ++
  (if meeting_id.isSome then [] else ["meeting_id"]) ++
  (if timestamp.isSome then [] else ["timestamp"])

/-- Pydantic construction of `GeneratedTextMessage` from keyword arguments:
succeeds exactly when every required `BaseResponse` field is supplied,
otherwise raises a `ValidationError` naming the missing fields. -/
def mkGeneratedTextMessage (message_id meeting_id timestamp : Option String)
    (content : GeneratedTextContent) : Except (List String) GeneratedTextMessage :=
  match message_id, meeting_id, timestamp with
  | some a, some b, some c => Except.ok ⟨a, b, c, "generated_text", content⟩
  | mi, me, ts => Except.error (missingBaseResponseFields mi me ts)

/-- `CustomUIElementMessage` (`models/outbound.py` lines 165-171): extends
`BaseResponse` with `type = "custom_ui_element"` and an element payload. -/
structure CustomUIElementMessage (El : Type) where
  message_id : String
  meeting_id : String
  timestamp : String
  type : String
  content : El
deriving DecidableEq, Repr

/-- Pydantic construction of `CustomUIElementMessage` from keyword
arguments. -/
def mkCustomUIElementMessage {El : Type} (message_id meeting_id timestamp : Option String)
    (content : El) : Except (List String) (CustomUIElementMessage El) :=
  match message_id, meeting_id, timestamp with
  | some a, some b, some c => Except.ok ⟨a, b, c, "custom_ui_element", content⟩
  | mi, me, ts => Except.error (missingBaseResponseFields mi me ts)

/-- `MessageSender.send_generated_text` (`messaging.py` lines 67-82) builds
`GeneratedTextMessage(content=content)` — it passes ONLY `content`; no
`message_id`, `meeting_id` or `timestamp` keyword is supplied (the imported
`uuid` and `datetime` modules are never used). -/
def sendGeneratedTextBuild (text : String) (is_generation_end : Bool) :
    Except (List String) GeneratedTextMessage :=
  mkGeneratedTextMessage none none none (GeneratedTextContent.mk text is_generation_end)

/-- `MessageSender.send_custom_ui_element` (`messaging.py` lines 84-105)
builds `CustomUIElementMessage(content=element)` — again only `content`. -/
def sendCustomUIElementBuild {El : Type} (element : El) :
    Except (List String) (CustomUIElementMessage El) :=
  mkCustomUIElementMessage none none none element

/-- C8: pydantic does enforce the required identity fields at build time —
construction succeeds exactly when `message_id`, `meeting_id` and
`timestamp` are all supplied — but the send operations in `messaging.py`
never supply them, so every reply-style build they perform fails with a
`ValidationError` listing all three missing fields.  The claim that these
fields are "populated at build time from constructor data plus context" is
false of the code: no reply-style outbound message can ever be produced and
sent by these operations. -/
theorem C8_send_operations_never_populate_required_fields :
    (∀ text b, sendGeneratedTextBuild text b =
      Except.error ["message_id", "meeting_id", "timestamp"])
    ∧ (∀ (El : Type) (e : El), sendCustomUIElementBuild e =
      Except.error ["message_id", "meeting_id", "timestamp"])
    ∧ (∀ mi me ts c, (∃ m, mkGeneratedTextMessage mi me ts c = Except.ok m) ↔
        (mi.isSome = true ∧ me.isSome = true ∧ ts.isSome = true)) := by
  refine ⟨fun text b => rfl, fun El e => rfl, ?_⟩
  intro mi me ts c
  cases mi <;> cases me <;> cases ts <;>
    simp [mkGeneratedTextMessage, missingBaseResponseFields]

end FramewiseMeetClient
